import Mathlib

/-!
Shallow embedding of the Cloudflare DNS record adapter (a Formae resource
plugin) and proofs about its property codec, record mapper, error
classifier, name normalization and CRUD operations.

Sources embedded:
- pkg/cloudflare/client.go: record mapper switches, list pagination,
  response conversion, NormalizeName.
- the error classifier file (MapErrorCode, IsNotFound, IsRateLimited).
- the plugin file: parseProperties, validateProperties, recordToProperties
  from the standalone implementation, and Create, Delete, List from the
  implementation that delegates to pkg/cloudflare.
-/

/-- Operation error codes surfaced to the orchestrator, mirroring
`resource.OperationErrorCode`. The `empty` constructor models the Go zero
value `""` returned by `MapErrorCode` for a nil error. -/
inductive OperationErrorCode where
  | empty
  | invalidRequest
  | invalidCredentials
  | accessDenied
  | notFound
  | throttling
  | serviceInternalError
  | internalFailure
deriving DecidableEq, Repr

/-- Operation status of a CRUD result, mirroring `resource.OperationStatus`
as used by this plugin (only success and failure occur). -/
inductive OperationStatus where
  | success
  | failure
deriving DecidableEq, Repr

/-- Errors returned by the Cloudflare SDK as seen by the adapter: either an
API error carrying an HTTP status code (matched by `errors.As` against
`*cf.Error`), or any other error (transport failures, `errors.New` values),
which `errors.As` does not match. -/
inductive CFError where
  | api (statusCode : Nat)
  | generic (msg : String)
deriving DecidableEq, Repr

/-- Embedding of `MapErrorCode` from the error classifier file: a switch on
the API error's HTTP status code, with anything unmatched (including
non-API errors) falling through to `InternalFailure`, and a nil error
mapped to the zero value `""`. -/
def MapErrorCode (err : Option CFError) : OperationErrorCode :=
  match err with
  | none => .empty
  | some (.api code) =>
    if code = 400 then .invalidRequest
    else if code = 401 then .invalidCredentials
    else if code = 403 then .accessDenied
    else if code = 404 then .notFound
    else if code = 429 then .throttling
    else if code = 500 || code = 502 || code = 503 || code = 504 then .serviceInternalError
    else .internalFailure
  | some (.generic _) => .internalFailure

/-- Embedding of `IsNotFound` from the error classifier file: true exactly
for an API error with status code 404. -/
def IsNotFound (err : Option CFError) : Bool :=
  match err with
  | none => false
  | some (.api code) => code == 404
  | some (.generic _) => false

/-- Embedding of `IsRateLimited` from the error classifier file: true
exactly for an API error with status code 429. -/
def IsRateLimited (err : Option CFError) : Bool :=
  match err with
  | none => false
  | some (.api code) => code == 429
  | some (.generic _) => false

/-- Embedding of Go `strings.HasSuffix` on the character sequences of the
two strings. -/
def hasSuffix (s suffix : String) : Bool :=
  decide (suffix.data <:+ s.data)

/-- Embedding of Go `strings.TrimSuffix`: removes `suffix` once from the
end of `s` when it is a suffix, otherwise returns `s` unchanged. -/
def trimSuffix (s suffix : String) : String :=
  if hasSuffix s suffix then String.mk (s.data.take (s.data.length - suffix.data.length))
  else s

/-- Embedding of `NormalizeName` from pkg/cloudflare/client.go: returns "@"
when the FQDN equals the zone domain, strips the "." + zone domain suffix
when present, and otherwise returns the FQDN unchanged. -/
def NormalizeName (fqdn zoneDomain : String) : String :=
  if fqdn = zoneDomain then "@"
  else
    let suffix := "." ++ zoneDomain
    if hasSuffix fqdn suffix then trimSuffix fqdn suffix
    else fqdn

/-- Modelled from the spec: `Denormalize(shortName, zoneApex)` of §4.2 is
not present in the repository sources (only its inverse `NormalizeName`
is; provider requests are built with the short name directly). Per the
spec it appends "." + apex unless the short name is "@", in which case it
returns the apex itself. -/
def Denormalize (shortName zoneApex : String) : String :=
  if shortName = "@" then zoneApex else shortName ++ "." ++ zoneApex

/-- Embedding of the `DNSRecordProperties` struct of the standalone plugin
implementation: `Priority` and `Comment` are pointers, modelled as
options; the remaining fields are plain values. -/
structure DNSRecordProperties where
  recordType : String
  name : String
  content : String
  ttl : Int
  proxied : Bool
  priority : Option Int
  comment : Option String
deriving DecidableEq, Repr

/-- Embedding of the `supportedRecordTypes` map: membership test for the
eight keys stored with value true. -/
def supportedRecordTypes (t : String) : Bool :=
  t = "A" || t = "AAAA" || t = "CNAME" || t = "MX" || t = "TXT" || t = "NS" ||
    t = "CAA" || t = "SRV"

/-- Embedding of the `proxyableRecordTypes` map: A, AAAA and CNAME. -/
def proxyableRecordTypes (t : String) : Bool :=
  t = "A" || t = "AAAA" || t = "CNAME"

/-- Embedding of the `priorityRequiredTypes` map: MX and SRV. -/
def priorityRequiredTypes (t : String) : Bool :=
  t = "MX" || t = "SRV"

/-- Decoded form of a DNS-record properties JSON payload as seen by Go
`json.Unmarshal` into the `DNSRecordProperties` struct: each field is
either present with a value or absent (absent leaves the pre-initialized
struct field untouched). A malformed payload is modelled as `none` at the
`parseProperties` call site. -/
structure RawDNSProps where
  recordType : Option String
  name : Option String
  content : Option String
  ttl : Option Int
  proxied : Option Bool
  priority : Option Int
  comment : Option String
deriving DecidableEq, Repr

/-- Embedding of `parseProperties` of the standalone implementation:
defaults `ttl = 1` and `proxied = false` are set before unmarshalling, a
malformed payload (`none`) is an error, and a zero-valued `record_type`,
`name` or `content` after unmarshalling is an error. -/
def parseProperties (raw : Option RawDNSProps) : Except String DNSRecordProperties :=
  match raw with
  | none => .error "failed to parse properties"
  | some r =>
    let props : DNSRecordProperties :=
      { recordType := r.recordType.getD ""
        name := r.name.getD ""
        content := r.content.getD ""
        ttl := r.ttl.getD 1
        proxied := r.proxied.getD false
        priority := r.priority
        comment := r.comment }
    if props.recordType = "" then .error "record_type is required"
    else if props.name = "" then .error "name is required"
    else if props.content = "" then .error "content is required"
    else .ok props

/-- Embedding of `validateProperties` of the standalone implementation:
rejects an unsupported record type, a missing priority for MX/SRV, and
`proxied` set on a non-proxyable type. -/
def validateProperties (props : DNSRecordProperties) : Except String Unit :=
  if !supportedRecordTypes props.recordType then
    .error ("unsupported record type: " ++ props.recordType)
  else if priorityRequiredTypes props.recordType && props.priority.isNone then
    .error ("priority is required for " ++ props.recordType ++ " records")
  else if props.proxied && !proxyableRecordTypes props.recordType then
    .error "proxied can only be set for A, AAAA, and CNAME records"
  else .ok ()

/-- Boolean view of a successful validation. -/
def validationOk (props : DNSRecordProperties) : Bool :=
  match validateProperties props with
  | .ok _ => true
  | .error _ => false

/-- Boolean view of a successful parse. -/
def parseOk (raw : Option RawDNSProps) : Bool :=
  match parseProperties raw with
  | .ok _ => true
  | .error _ => false

/-- Embedding of the v1 SDK `cloudflare.DNSRecord` as consumed by
`recordToProperties` of the standalone implementation: `Proxied` is a
bool pointer, `Priority` a numeric pointer, `Comment` a plain string. -/
structure V1DNSRecord where
  name : String
  recordType : String
  content : String
  ttl : Int
  proxied : Option Bool
  priority : Option Int
  comment : String
deriving DecidableEq, Repr

/-- Embedding of `recordToProperties` of the standalone implementation:
strips the zone suffix from the FQDN, converts the apex to "@", and
reports a nil proxied as false, a zero-length comment as absent, and a
nil priority as absent. -/
def recordToProperties (record : V1DNSRecord) (zoneName : String) : DNSRecordProperties :=
  let name :=
    if zoneName ≠ "" then
      let trimmed := trimSuffix record.name ("." ++ zoneName)
      if trimmed = zoneName then "@" else trimmed
    else record.name
  { recordType := record.recordType
    name := name
    content := record.content
    ttl := record.ttl
    proxied := record.proxied.getD false
    priority := record.priority
    comment := if record.comment ≠ "" then some record.comment else none }

/-- Embedding of the `DNSRecord` struct of pkg/cloudflare/client.go:
`Priority` is a pointer (absent for non-applicable types), everything
else a plain value. -/
structure ClientDNSRecord where
  id : String
  zoneID : String
  name : String
  recordType : String
  content : String
  ttl : Int
  proxied : Bool
  comment : String
  priority : Option Int
deriving DecidableEq, Repr

/-- Embedding of the v4 SDK `dns.RecordResponse` fields read by
`recordFromResponse`: `Priority` is a plain number whose zero value also
stands for an omitted field. -/
structure RecordResponse where
  id : String
  name : String
  recordType : String
  content : String
  ttl : Int
  proxied : Bool
  comment : String
  priority : Int
deriving DecidableEq, Repr

/-- Embedding of `recordFromResponse` of pkg/cloudflare/client.go: copies
the response fields and materializes `Priority` as present only when the
response value is nonzero. -/
def recordFromResponse (resp : RecordResponse) (zoneID : String) : ClientDNSRecord :=
  { id := resp.id
    zoneID := zoneID
    name := resp.name
    recordType := resp.recordType
    content := resp.content
    proxied := resp.proxied
    comment := resp.comment
    ttl := resp.ttl
    priority := if resp.priority ≠ 0 then some resp.priority else none }

/-- Per-type provider request bodies built by the switches in
`CreateRecord` and `UpdateRecord` of pkg/cloudflare/client.go. Each
handled record type has a distinct body shape: A, AAAA and CNAME carry
`proxied`; TXT and NS do not; MX carries a numeric priority. -/
inductive RecordParam where
  | aBody (name content : String) (ttl : Int) (proxied : Bool) (comment : String)
  | aaaaBody (name content : String) (ttl : Int) (proxied : Bool) (comment : String)
  | cnameBody (name content : String) (ttl : Int) (proxied : Bool) (comment : String)
  | txtBody (name content : String) (ttl : Int) (comment : String)
  | mxBody (name content : String) (ttl : Int) (priority : Int) (comment : String)
  | nsBody (name content : String) (ttl : Int) (comment : String)
deriving DecidableEq, Repr

/-- Embedding of the record-type switch of `CreateRecord` in
pkg/cloudflare/client.go: builds the per-type body, defaulting the MX
priority to 10 when the record carries none, and failing on any record
type outside the six handled cases. -/
def createRecordBody (record : ClientDNSRecord) : Except String RecordParam :=
  if record.recordType = "A" then
    .ok (.aBody record.name record.content record.ttl record.proxied record.comment)
  else if record.recordType = "AAAA" then
    .ok (.aaaaBody record.name record.content record.ttl record.proxied record.comment)
  else if record.recordType = "CNAME" then
    .ok (.cnameBody record.name record.content record.ttl record.proxied record.comment)
  else if record.recordType = "TXT" then
    .ok (.txtBody record.name record.content record.ttl record.comment)
  else if record.recordType = "MX" then
    .ok (.mxBody record.name record.content record.ttl (record.priority.getD 10) record.comment)
  else if record.recordType = "NS" then
    .ok (.nsBody record.name record.content record.ttl record.comment)
  else .error ("unsupported record type: " ++ record.recordType)

/-- Embedding of the record-type switch of `UpdateRecord` in
pkg/cloudflare/client.go, textually identical to the one in
`CreateRecord`. -/
def updateRecordBody (record : ClientDNSRecord) : Except String RecordParam :=
  if record.recordType = "A" then
    .ok (.aBody record.name record.content record.ttl record.proxied record.comment)
  else if record.recordType = "AAAA" then
    .ok (.aaaaBody record.name record.content record.ttl record.proxied record.comment)
  else if record.recordType = "CNAME" then
    .ok (.cnameBody record.name record.content record.ttl record.proxied record.comment)
  else if record.recordType = "TXT" then
    .ok (.txtBody record.name record.content record.ttl record.comment)
  else if record.recordType = "MX" then
    .ok (.mxBody record.name record.content record.ttl (record.priority.getD 10) record.comment)
  else if record.recordType = "NS" then
    .ok (.nsBody record.name record.content record.ttl record.comment)
  else .error ("unsupported record type: " ++ record.recordType)

/-- Embedding of `Client.CreateRecord` of pkg/cloudflare/client.go around
an injected provider outcome: an unsupported record type returns the
builder's error (a plain `errors.New`, not an API error) without the
provider outcome being consulted; otherwise the provider error is passed
through, and a provider response is converted by `recordFromResponse`. -/
def clientCreateRecord (record : ClientDNSRecord)
    (providerResp : Except CFError RecordResponse) : Except CFError ClientDNSRecord :=
  match createRecordBody record with
  | .error msg => .error (.generic msg)
  | .ok _ =>
    match providerResp with
    | .error e => .error e
    | .ok resp => .ok (recordFromResponse resp record.zoneID)

/-- Embedding of `Client.UpdateRecord` of pkg/cloudflare/client.go around
an injected provider outcome, mirroring `clientCreateRecord`. -/
def clientUpdateRecord (record : ClientDNSRecord)
    (providerResp : Except CFError RecordResponse) : Except CFError ClientDNSRecord :=
  match updateRecordBody record with
  | .error msg => .error (.generic msg)
  | .ok _ =>
    match providerResp with
    | .error e => .error e
    | .ok resp => .ok (recordFromResponse resp record.zoneID)

/-- Provider-side paged listing, assumed correct per the spec: the 1-based
page `page` of size `perPage` over the zone's record IDs. The provider
also echoes the served page index in its result info. -/
def cloudflareListPage (records : List String) (page perPage : Nat) : List String :=
  (records.drop ((page - 1) * perPage)).take perPage

/-- Value of a decimal digit character, `none` for a non-digit. -/
def digitVal (c : Char) : Option Nat :=
  if c = '0' then some 0
  else if c = '1' then some 1
  else if c = '2' then some 2
  else if c = '3' then some 3
  else if c = '4' then some 4
  else if c = '5' then some 5
  else if c = '6' then some 6
  else if c = '7' then some 7
  else if c = '8' then some 8
  else if c = '9' then some 9
  else none

/-- Accumulating decimal parse over a character list, failing on the
first non-digit. -/
def parseNatAux : List Char → Nat → Option Nat
  | [], acc => some acc
  | c :: cs, acc =>
    match digitVal c with
    | none => none
    | some d => parseNatAux cs (acc * 10 + d)

/-- Decimal natural-number parse of a string, `none` when empty or when
any character is not a digit. -/
def parseNatString (s : String) : Option Nat :=
  match s.data with
  | [] => none
  | cs => parseNatAux cs 0

/-- Embedding of the page-token handling of `Client.ListRecords`: the
`Page` parameter is set only for a non-empty token that parses to a
number at least 1 (the code parses with `strconv.ParseFloat`; the tokens
the code itself emits are decimal integers, parsed here as naturals);
otherwise the provider's default page 1 applies. -/
def parsePageToken (pageToken : Option String) : Nat :=
  match pageToken with
  | none => 1
  | some s =>
    if s = "" then 1
    else
      match parseNatString s with
      | some p => if 1 ≤ p then p else 1
      | none => 1

/-- Embedding of `Client.ListRecords` of pkg/cloudflare/client.go over the
provider's record IDs: a nonpositive requested page size falls back to
the default 100, the requested page is served by the provider, and a
next-page token (the decimal form of the next 1-based page index) is
attached exactly when the returned page is full-sized. -/
def clientListRecords (records : List String) (pageToken : Option String)
    (pageSize : Int) : List String × Option String :=
  let pSize : Nat := if 0 < pageSize then pageSize.toNat else 100
  let page : Nat := parsePageToken pageToken
  let result := cloudflareListPage records page pSize
  let nextToken : Option String :=
    if result.length = pSize then some (toString (page + 1)) else none
  (result, nextToken)

/-- Embedding of the `targetConfig` struct of the delegating plugin
implementation: the zone identifier only (the API token comes from the
environment). -/
structure PluginTargetConfig where
  zoneID : String
deriving DecidableEq, Repr

/-- Embedding of the `dnsRecordProperties` struct of the delegating plugin
implementation: `Priority` is a pointer, `Comment` a plain string with
omitempty, `ID` a plain string. -/
structure PluginDNSProps where
  id : String
  zoneID : String
  name : String
  recordType : String
  content : String
  ttl : Int
  proxied : Bool
  comment : String
  priority : Option Int
deriving DecidableEq, Repr

/-- Result of the plugin's Create operation: the progress-result fields it
populates. `nativeID` models the Go string field whose zero value is "";
`resourceProperties` models the serialized properties payload, absent on
failure. -/
structure CreateResult where
  status : OperationStatus
  errorCode : OperationErrorCode
  nativeID : String
  resourceProperties : Option PluginDNSProps
deriving DecidableEq, Repr

/-- Result of the plugin's Delete operation. -/
structure DeleteResult where
  status : OperationStatus
  errorCode : OperationErrorCode
deriving DecidableEq, Repr

/-- Result of the plugin's List operation, mirroring `resource.ListResult`:
native IDs and an optional next-page token. The shape carries no error
field. -/
structure PluginListResult where
  nativeIDs : List String
  nextPageToken : Option String
deriving DecidableEq, Repr

/-- Embedding of `Plugin.Create` of the delegating implementation over
injected collaborator outcomes: a malformed properties payload fails with
InvalidRequest, a failed client construction with InvalidCredentials, a
failed provider create with the classified error code; on success the
result carries the created record's ID as NativeID and properties built
from the request's own name rather than the created record's FQDN. -/
def pluginCreate (parsed : Option PluginDNSProps) (clientOutcome : Except String Unit)
    (createOutcome : Except CFError ClientDNSRecord) : CreateResult :=
  match parsed with
  | none => { status := .failure, errorCode := .invalidRequest, nativeID := "", resourceProperties := none }
  | some props =>
    match clientOutcome with
    | .error _ => { status := .failure, errorCode := .invalidCredentials, nativeID := "", resourceProperties := none }
    | .ok _ =>
      match createOutcome with
      | .error e => { status := .failure, errorCode := MapErrorCode (some e), nativeID := "", resourceProperties := none }
      | .ok created =>
        let createdProps : PluginDNSProps :=
          { id := created.id
            zoneID := created.zoneID
            name := props.name
            recordType := created.recordType
            content := created.content
            ttl := created.ttl
            proxied := created.proxied
            comment := created.comment
            priority := created.priority }
        { status := .success, errorCode := .empty, nativeID := created.id,
          resourceProperties := some createdProps }

/-- Embedding of the delete-call handling of `Plugin.Delete` of the
delegating implementation: a nil error and a not-found error both yield
success; any other error yields failure with the classified code. -/
def pluginDelete (deleteErr : Option CFError) : DeleteResult :=
  match deleteErr with
  | none => { status := .success, errorCode := .empty }
  | some e =>
    if IsNotFound (some e) then { status := .success, errorCode := .empty }
    else { status := .failure, errorCode := MapErrorCode (some e) }

/-- Embedding of `Plugin.List` of the delegating implementation over
injected collaborator outcomes: a config-parse failure, a missing zone
ID, a failed client construction and a failed provider listing all yield
an empty ID list with no token; a successful listing is passed through. -/
def pluginList (cfgOutcome : Except String PluginTargetConfig)
    (clientOutcome : Except String Unit)
    (listOutcome : Except CFError (List String × Option String)) : PluginListResult :=
  match cfgOutcome with
  | .error _ => { nativeIDs := [], nextPageToken := none }
  | .ok cfg =>
    if cfg.zoneID = "" then { nativeIDs := [], nextPageToken := none }
    else
      match clientOutcome with
      | .error _ => { nativeIDs := [], nextPageToken := none }
      | .ok _ =>
        match listOutcome with
        | .error _ => { nativeIDs := [], nextPageToken := none }
        | .ok (ids, nextToken) => { nativeIDs := ids, nextPageToken := nextToken }

/-- Validity predicate written from the wording of claim C1, for
comparison with `validateProperties`: the record type is one of the
eight supported ones, the priority field is present exactly when the
type is MX or SRV, and proxied is not set on a non-proxyable type. -/
def claimC1Valid (p : DNSRecordProperties) : Bool :=
  supportedRecordTypes p.recordType &&
    (p.priority.isSome == priorityRequiredTypes p.recordType) &&
    !(p.proxied && !proxyableRecordTypes p.recordType)

/-- A record with a priority present on a non-MX, non-SRV type: an A
record carrying priority 10. -/
def aRecordWithPriority : DNSRecordProperties :=
  { recordType := "A", name := "www", content := "192.0.2.1", ttl := 1,
    proxied := false, priority := some 10, comment := none }

/-- The six record types the switches in pkg/cloudflare/client.go
actually handle. -/
def clientHandledRecordTypes (t : String) : Bool :=
  t = "A" || t = "AAAA" || t = "CNAME" || t = "TXT" || t = "MX" || t = "NS"

/-- A well-formed CAA record input for the client record mapper. -/
def caaRecordInput : ClientDNSRecord :=
  { id := "", zoneID := "zone1", name := "example.com", recordType := "CAA",
    content := "0 issue letsencrypt.org", ttl := 3600, proxied := false,
    comment := "", priority := none }

/-- A well-formed A record input for the client record mapper. -/
def aClientRecordInput : ClientDNSRecord :=
  { id := "", zoneID := "zone1", name := "www.example.com", recordType := "A",
    content := "192.0.2.1", ttl := 300, proxied := true,
    comment := "", priority := none }

/-- Five record IDs in a zone, for the pagination scenario of claim C6. -/
def fiveRecords : List String := ["r1", "r2", "r3", "r4", "r5"]

/-- Properties supplied by the orchestrator in the Create witness: the
short name "www". -/
def createWitnessProps : PluginDNSProps :=
  { id := "", zoneID := "z1", name := "www", recordType := "A",
    content := "192.0.2.1", ttl := 1, proxied := true, comment := "",
    priority := none }

/-- The record echoed by the provider in the Create witness: the
fully-qualified name "www.example.com". -/
def createWitnessCreated : ClientDNSRecord :=
  { id := "rec1", zoneID := "z1", name := "www.example.com", recordType := "A",
    content := "192.0.2.1", ttl := 1, proxied := true, comment := "",
    priority := none }

/-- A properties payload with all three required fields supplied and the
optional fields omitted. -/
def rawPropsWitness : RawDNSProps :=
  { recordType := some "A", name := some "www", content := some "192.0.2.1",
    ttl := none, proxied := none, priority := none, comment := none }

/-- A provider MX record response whose priority field is zero. -/
def mxZeroPriorityResp : RecordResponse :=
  { id := "r1", name := "example.com", recordType := "MX",
    content := "mail.example.com", ttl := 1, proxied := false, comment := "",
    priority := 0 }

/-- A v1 SDK record with an empty-string comment. -/
def emptyCommentV1Record : V1DNSRecord :=
  { name := "www.example.com", recordType := "A", content := "192.0.2.1",
    ttl := 300, proxied := some false, priority := none, comment := "" }

/-- C1 counterexample: `validateProperties` accepts an A record carrying a
priority, although the claim requires validation to fail whenever the
priority field is present on a type outside MX and SRV. -/
theorem validatePriorityPresenceCounterexample :
    validationOk aRecordWithPriority = true ∧ claimC1Valid aRecordWithPriority = false := by
  decide

/-- C1 (amended): validation succeeds iff the record type is one of the
eight supported types, the priority field is present whenever the type is
MX or SRV (a present priority on any other type is not rejected), and
proxied is not set on a type outside A, AAAA and CNAME. -/
theorem validatePropertiesCharacterization (p : DNSRecordProperties) :
    validationOk p = true ↔
      (supportedRecordTypes p.recordType = true ∧
       (priorityRequiredTypes p.recordType = true → p.priority.isSome = true) ∧
       (p.proxied = true → proxyableRecordTypes p.recordType = true)) := by
  unfold validationOk validateProperties
  rcases hs : supportedRecordTypes p.recordType <;>
    rcases hr : priorityRequiredTypes p.recordType <;>
      rcases hx : proxyableRecordTypes p.recordType <;>
        rcases hpr : p.priority with _ | pr <;>
          rcases hp : p.proxied <;>
            simp [hs, hr, hx, hpr, hp]

/-- Witness for C1 (amended) at a concrete valid MX record. -/
theorem validatePropertiesCharacterizationWitness :
    validationOk { recordType := "MX", name := "mail", content := "mail.example.com",
                   ttl := 1, proxied := false, priority := some 10, comment := none } = true :=
  (validatePropertiesCharacterization _).mpr ⟨by decide, fun _ => by decide, fun h => by simp at h⟩

/-- C2: when the provider's delete call reports the record as not found
the Delete operation succeeds, and on any other provider error it returns
a failure, never success. -/
theorem deleteIdempotentOnNotFound (e : CFError) :
    (IsNotFound (some e) = true →
      pluginDelete (some e) = { status := .success, errorCode := .empty }) ∧
    (IsNotFound (some e) = false →
      (pluginDelete (some e)).status = .failure ∧
        (pluginDelete (some e)).status ≠ .success) := by
  unfold pluginDelete
  constructor <;> intro h <;> simp [h]

/-- Witness for C2 at a 404 API error and at a 500 API error. -/
theorem deleteIdempotentOnNotFoundWitness :
    pluginDelete (some (.api 404)) = { status := .success, errorCode := .empty } ∧
      (pluginDelete (some (.api 500))).status = .failure :=
  ⟨(deleteIdempotentOnNotFound (.api 404)).1 (by decide),
   ((deleteIdempotentOnNotFound (.api 500)).2 (by decide)).1⟩

/-- C3 counterexample: CAA is among the claim's eight supported types, yet
the record mapper of pkg/cloudflare/client.go rejects it with the
unsupported-record-type error in both the create and the update switch. -/
theorem caaRecordRejectedCounterexample :
    createRecordBody caaRecordInput = .error "unsupported record type: CAA" ∧
      updateRecordBody caaRecordInput = .error "unsupported record type: CAA" :=
  ⟨rfl, rfl⟩

/-- C3 (amended): the record mapper builds a type-specific body without
error exactly for the six types A, AAAA, CNAME, TXT, MX and NS; for any
other record type (including CAA and SRV) CreateRecord and UpdateRecord
return the unsupported-record-type error whatever the provider outcome,
so no provider call is consulted. -/
theorem recordMapperHandlesSixTypes (r : ClientDNSRecord)
    (resp : Except CFError RecordResponse) :
    (clientHandledRecordTypes r.recordType = true →
      (∃ b, createRecordBody r = .ok b) ∧ (∃ b, updateRecordBody r = .ok b)) ∧
    (clientHandledRecordTypes r.recordType = false →
      clientCreateRecord r resp =
          .error (.generic ("unsupported record type: " ++ r.recordType)) ∧
        clientUpdateRecord r resp =
          .error (.generic ("unsupported record type: " ++ r.recordType))) := by
  constructor
  · intro h
    simp only [clientHandledRecordTypes, Bool.or_eq_true, decide_eq_true_eq] at h
    unfold createRecordBody updateRecordBody
    rcases h with ((((h | h) | h) | h) | h) | h <;> simp [h]
  · intro h
    simp only [clientHandledRecordTypes, Bool.or_eq_false_iff,
      decide_eq_false_iff_not] at h
    obtain ⟨⟨⟨⟨⟨h1, h2⟩, h3⟩, h4⟩, h5⟩, h6⟩ := h
    unfold clientCreateRecord clientUpdateRecord createRecordBody updateRecordBody
    simp [h1, h2, h3, h4, h5, h6]

/-- Witness for C3 (amended): an A record builds a body, and a CAA record
is rejected without the provider outcome being consulted. -/
theorem recordMapperHandlesSixTypesWitness :
    (∃ b, createRecordBody aClientRecordInput = .ok b) ∧
      clientCreateRecord caaRecordInput (.ok mxZeroPriorityResp) =
        .error (.generic ("unsupported record type: " ++ caaRecordInput.recordType)) :=
  ⟨((recordMapperHandlesSixTypes aClientRecordInput (.error (.generic ""))).1 (by decide)).1,
   ((recordMapperHandlesSixTypes caaRecordInput (.ok mxZeroPriorityResp)).2 (by decide)).1⟩

/-- C4 counterexample: 501 is a 5xx status code, yet the error classifier
maps it to InternalFailure rather than ServiceInternalError. -/
theorem mapErrorCode501Counterexample :
    MapErrorCode (some (.api 501)) = .internalFailure ∧
      MapErrorCode (some (.api 501)) ≠ .serviceInternalError := by
  decide

/-- C4 (amended): the classifier maps 400 to InvalidRequest, 401 to
InvalidCredentials, 403 to AccessDenied, 404 to NotFound, 429 to
Throttling, the four codes 500, 502, 503 and 504 to ServiceInternalError,
every other status code to InternalFailure, and every non-API error to
InternalFailure. -/
theorem mapErrorCodeCharacterization (code : Nat) (msg : String) :
    (code = 400 → MapErrorCode (some (.api code)) = .invalidRequest) ∧
    (code = 401 → MapErrorCode (some (.api code)) = .invalidCredentials) ∧
    (code = 403 → MapErrorCode (some (.api code)) = .accessDenied) ∧
    (code = 404 → MapErrorCode (some (.api code)) = .notFound) ∧
    (code = 429 → MapErrorCode (some (.api code)) = .throttling) ∧
    ((code = 500 ∨ code = 502 ∨ code = 503 ∨ code = 504) →
      MapErrorCode (some (.api code)) = .serviceInternalError) ∧
    (code ≠ 400 → code ≠ 401 → code ≠ 403 → code ≠ 404 → code ≠ 429 →
      code ≠ 500 → code ≠ 502 → code ≠ 503 → code ≠ 504 →
      MapErrorCode (some (.api code)) = .internalFailure) ∧
    MapErrorCode (some (.generic msg)) = .internalFailure := by
  refine ⟨?_, ?_, ?_, ?_, ?_, ?_, ?_, rfl⟩
  · intro h; simp [MapErrorCode, h]
  · intro h; simp [MapErrorCode, h]
  · intro h; simp [MapErrorCode, h]
  · intro h; simp [MapErrorCode, h]
  · intro h; simp [MapErrorCode, h]
  · rintro (h | h | h | h) <;> simp [MapErrorCode, h]
  · intro h1 h2 h3 h4 h5 h6 h7 h8 h9
    simp [MapErrorCode, h1, h2, h3, h4, h5, h6, h7, h8, h9]

/-- Witness for C4 (amended) at status 403 and at 418. -/
theorem mapErrorCodeCharacterizationWitness :
    MapErrorCode (some (.api 403)) = .accessDenied ∧
      MapErrorCode (some (.api 418)) = .internalFailure :=
  ⟨(mapErrorCodeCharacterization 403 "").2.2.1 rfl,
   (mapErrorCodeCharacterization 418 "").2.2.2.2.2.2.1 (by decide) (by decide)
     (by decide) (by decide) (by decide) (by decide) (by decide) (by decide) (by decide)⟩

/-- C5: normalizing the denormalized form of any short name over any
nonempty zone apex gives the short name back. -/
theorem normalizeDenormalizeRoundTrip (x z : String) (_h : z ≠ "") :
    NormalizeName (Denormalize x z) z = x := by
  unfold Denormalize NormalizeName
  by_cases hx : x = "@"
  · simp [hx]
  · rw [if_neg hx]
    have hassoc : x ++ "." ++ z = x ++ ("." ++ z) := String.append_assoc x "." z
    have hdata : (x ++ "." ++ z).data = x.data ++ ("." ++ z).data := by
      rw [hassoc, String.data_append]
    have hne : ¬(x ++ "." ++ z = z) := by
      intro hEq
      have hlen := congrArg (fun s => s.data.length) hEq
      simp only [hdata, List.length_append] at hlen
      have : ("." ++ z).data.length = 1 + z.data.length := by
        rw [String.data_append, List.length_append]
        rfl
      omega
    rw [if_neg hne]
    have hsuf : hasSuffix (x ++ "." ++ z) ("." ++ z) = true := by
      unfold hasSuffix
      simp only [decide_eq_true_eq]
      rw [hdata]
      exact List.suffix_append x.data ("." ++ z).data
    rw [if_pos hsuf]
    unfold trimSuffix
    rw [if_pos hsuf]
    rw [hdata]
    have hlen2 : (x.data ++ ("." ++ z).data).length - ("." ++ z).data.length
        = x.data.length := by
      rw [List.length_append]
      omega
    rw [hlen2, List.take_left]

/-- Witness for C5 at the three short names named by the spec over the
apex "example.com". -/
theorem normalizeDenormalizeRoundTripWitness :
    NormalizeName (Denormalize "@" "example.com") "example.com" = "@" ∧
      NormalizeName (Denormalize "www" "example.com") "example.com" = "www" ∧
      NormalizeName (Denormalize "a.b.c" "example.com") "example.com" = "a.b.c" :=
  ⟨normalizeDenormalizeRoundTrip "@" "example.com" (by decide),
   normalizeDenormalizeRoundTrip "www" "example.com" (by decide),
   normalizeDenormalizeRoundTrip "a.b.c" "example.com" (by decide)⟩

/-- C6: a List call serves the page named by the token at the requested
page size (100 when the requested size is not positive), the result
carries a next-page token exactly when the returned page is full-sized,
the token is the decimal form of the next 1-based page index, and five
records listed at page size 2 produce three pages of which only the first
two carry a token. -/
theorem listPaginationBehavior :
    (∀ (records : List String) (tok : Option String) (ps : Int),
      (clientListRecords records tok ps).1 =
          cloudflareListPage records (parsePageToken tok)
            (if 0 < ps then ps.toNat else 100) ∧
      ((clientListRecords records tok ps).2.isSome = true ↔
        (clientListRecords records tok ps).1.length =
          (if 0 < ps then ps.toNat else 100)) ∧
      ((clientListRecords records tok ps).1.length =
          (if 0 < ps then ps.toNat else 100) →
        (clientListRecords records tok ps).2 =
          some (toString (parsePageToken tok + 1)))) ∧
    (clientListRecords fiveRecords none 2 = (["r1", "r2"], some "2") ∧
      clientListRecords fiveRecords (some "2") 2 = (["r3", "r4"], some "3") ∧
      clientListRecords fiveRecords (some "3") 2 = (["r5"], none)) := by
  constructor
  · intro records tok ps
    unfold clientListRecords
    by_cases hfull :
        (cloudflareListPage records (parsePageToken tok)
          (if 0 < ps then ps.toNat else 100)).length =
          (if 0 < ps then ps.toNat else 100) <;>
      simp [hfull]
  · refine ⟨?_, ?_, ?_⟩ <;> decide

/-- Witness for C6: a full page of size 2 out of three records carries the
token "2". -/
theorem listPaginationBehaviorWitness :
    (clientListRecords ["a", "b", "c"] none 2).2 = some (toString (parsePageToken none + 1)) :=
  (listPaginationBehavior.1 ["a", "b", "c"] none 2).2.2 (by decide)

/-- C7: every successful Create result carries the created record's ID as
NativeID and resource properties whose name is the request's own short
name rather than the name echoed by the provider. -/
theorem createUsesRequestName (parsed : Option PluginDNSProps)
    (clientOutcome : Except String Unit)
    (createOutcome : Except CFError ClientDNSRecord) :
    (pluginCreate parsed clientOutcome createOutcome).status = .success →
      ∃ props created, parsed = some props ∧ createOutcome = .ok created ∧
        (pluginCreate parsed clientOutcome createOutcome).nativeID = created.id ∧
        ((pluginCreate parsed clientOutcome createOutcome).resourceProperties.map
            PluginDNSProps.name) = some props.name := by
  intro h
  rcases parsed with _ | props
  · simp [pluginCreate] at h
  rcases clientOutcome with msg | u
  · simp [pluginCreate] at h
  rcases createOutcome with e | created
  · simp [pluginCreate] at h
  exact ⟨props, created, rfl, rfl, rfl, rfl⟩

/-- Witness for C7: a Create whose provider echo carries the FQDN still
reports the short name from the request. -/
theorem createUsesRequestNameWitness :
    ∃ props created, some createWitnessProps = some props ∧
      (Except.ok createWitnessCreated : Except CFError ClientDNSRecord) = .ok created ∧
      (pluginCreate (some createWitnessProps) (.ok ()) (.ok createWitnessCreated)).nativeID
        = created.id ∧
      ((pluginCreate (some createWitnessProps) (.ok ())
          (.ok createWitnessCreated)).resourceProperties.map PluginDNSProps.name)
        = some props.name :=
  createUsesRequestName (some createWitnessProps) (.ok ()) (.ok createWitnessCreated)
    (by decide)

/-- C8: parsing succeeds exactly when the payload is well-formed and
record_type, name and content are each supplied and nonempty; on success
an omitted ttl becomes 1, an omitted proxied becomes false, and every
supplied field value is preserved. -/
theorem parsePropertiesCharacterization (raw : Option RawDNSProps) :
    (parseOk raw = true ↔
      ∃ r, raw = some r ∧ r.recordType.getD "" ≠ "" ∧ r.name.getD "" ≠ "" ∧
        r.content.getD "" ≠ "") ∧
    (∀ r p, raw = some r → parseProperties raw = .ok p →
      (r.ttl = none → p.ttl = 1) ∧ (∀ t, r.ttl = some t → p.ttl = t) ∧
      (r.proxied = none → p.proxied = false) ∧ (∀ b, r.proxied = some b → p.proxied = b) ∧
      p.recordType = r.recordType.getD "" ∧ p.name = r.name.getD "" ∧
      p.content = r.content.getD "" ∧ p.priority = r.priority ∧ p.comment = r.comment) := by
  constructor
  · rcases raw with _ | r
    · simp [parseOk, parseProperties]
    · unfold parseOk parseProperties
      by_cases h1 : r.recordType.getD "" = "" <;>
        by_cases h2 : r.name.getD "" = "" <;>
          by_cases h3 : r.content.getD "" = "" <;>
            simp [h1, h2, h3]
  · intro r p hr hp
    subst hr
    unfold parseProperties at hp
    by_cases h1 : r.recordType.getD "" = "" <;>
      by_cases h2 : r.name.getD "" = "" <;>
        by_cases h3 : r.content.getD "" = "" <;>
          simp [h1, h2, h3] at hp
    subst hp
    refine ⟨fun ht => by simp [ht], fun t ht => by simp [ht],
      fun hx => by simp [hx], fun b hb => by simp [hb], rfl, rfl, rfl, rfl, rfl⟩

/-- Witness for C8: a payload supplying the three required fields and
omitting the optional ones parses successfully. -/
theorem parsePropertiesCharacterizationWitness :
    parseOk (some rawPropsWitness) = true :=
  (parsePropertiesCharacterization (some rawPropsWitness)).1.mpr
    ⟨rawPropsWitness, rfl, by decide, by decide, by decide⟩

/-- C9: a config-parse failure, a missing zone ID, a failed client
construction and a failed provider listing each make List return the same
success-shaped result as listing an empty zone: an empty native-ID list
with no next-page token. -/
theorem listNeverSurfacesFailure (clientOutcome : Except String Unit)
    (listOutcome : Except CFError (List String × Option String)) :
    (∀ msg, pluginList (.error msg) clientOutcome listOutcome =
      { nativeIDs := [], nextPageToken := none }) ∧
    (∀ cfg, cfg.zoneID = "" → pluginList (.ok cfg) clientOutcome listOutcome =
      { nativeIDs := [], nextPageToken := none }) ∧
    (∀ cfg msg, clientOutcome = .error msg →
      pluginList (.ok cfg) clientOutcome listOutcome =
        { nativeIDs := [], nextPageToken := none }) ∧
    (∀ cfg e, listOutcome = .error e →
      pluginList (.ok cfg) (.ok ()) listOutcome =
        { nativeIDs := [], nextPageToken := none }) ∧
    (∀ cfg, pluginList (.ok cfg) (.ok ()) (.ok ([], none)) =
      { nativeIDs := [], nextPageToken := none }) := by
  refine ⟨fun msg => rfl, fun cfg h => ?_, fun cfg msg h => ?_, fun cfg e h => ?_,
    fun cfg => ?_⟩
  · simp [pluginList, h]
  · subst h
    unfold pluginList
    by_cases hz : cfg.zoneID = "" <;> simp [hz]
  · subst h
    unfold pluginList
    by_cases hz : cfg.zoneID = "" <;> simp [hz]
  · unfold pluginList
    by_cases hz : cfg.zoneID = "" <;> simp [hz]

/-- Witness for C9 at a malformed config and at an empty zone ID. -/
theorem listNeverSurfacesFailureWitness :
    pluginList (.error "bad json") (.ok ()) (.ok (["id1"], some "2")) =
      { nativeIDs := [], nextPageToken := none } ∧
    pluginList (.ok { zoneID := "" }) (.ok ()) (.ok (["id1"], some "2")) =
      { nativeIDs := [], nextPageToken := none } :=
  ⟨(listNeverSurfacesFailure (.ok ()) (.ok (["id1"], some "2"))).1 "bad json",
   (listNeverSurfacesFailure (.ok ()) (.ok (["id1"], some "2"))).2.1 { zoneID := "" } rfl⟩

/-- C10: a provider response with priority 0 is reported with the priority
property absent, and a record with an empty-string comment is reported
with the comment property absent. -/
theorem zeroPriorityAndEmptyCommentAbsent :
    (∀ (resp : RecordResponse) (zoneID : String), resp.priority = 0 →
      (recordFromResponse resp zoneID).priority = none) ∧
    (∀ (rec : V1DNSRecord) (zoneName : String), rec.comment = "" →
      (recordToProperties rec zoneName).comment = none) := by
  constructor
  · intro resp zoneID h
    simp [recordFromResponse, h]
  · intro rec zoneName h
    simp [recordToProperties, h]

/-- Witness for C10 at an MX response with priority 0 and a record with an
empty comment. -/
theorem zeroPriorityAndEmptyCommentAbsentWitness :
    (recordFromResponse mxZeroPriorityResp "zone1").priority = none ∧
      (recordToProperties emptyCommentV1Record "example.com").comment = none :=
  ⟨zeroPriorityAndEmptyCommentAbsent.1 mxZeroPriorityResp "zone1" rfl,
   zeroPriorityAndEmptyCommentAbsent.2 emptyCommentV1Record "example.com" rfl⟩
